import Mathlib

/-!
Verification of the ISO-19111 CRS object model of this repository
(src/src/crs.cpp, src/src/datum.cpp, src/src/coordinatesystem.cpp,
src/src/common.cpp) against its natural-language specification.

Numeric values of the C++ `double` computations are embedded as exact
rationals; the C++ control flow is translated function by function.
Collaborator code that lives outside the given sources (headers and
coordinateoperation.cpp) is modelled from the specification and marked
`Modelled from the spec:` in its doc comment.
-/

namespace ProjSpec

/-- Unit of measure (src/src/common.cpp). Carries the canonical name and the
multiplicative conversion factor to SI. `UnitOfMeasure::operator==` compares
by name only (common.cpp line 157). -/
structure UnitOfMeasure where
  uomName : String
  toSI : ℚ
  deriving Repr, DecidableEq

/-- Predefined METRE unit singleton. -/
def UnitOfMeasure.METRE : UnitOfMeasure := ⟨"metre", 1⟩

/-- Predefined DEGREE unit singleton; the source stores the factor as the
double literal 0.0174532925199433. -/
def UnitOfMeasure.DEGREE : UnitOfMeasure := ⟨"degree", 174532925199433 / 10000000000000000⟩

/-- Predefined dimensionless scale unit singleton (factor 1). -/
def UnitOfMeasure.SCALE_UNITY : UnitOfMeasure := ⟨"unity", 1⟩

/-- A measure is a numeric value tagged with its unit (src/src/common.cpp). -/
structure Measure where
  value : ℚ
  unit : UnitOfMeasure
  deriving Repr, DecidableEq

/-- Measure::getSIValue (common.cpp line 208): value times the unit factor. -/
def Measure.getSIValue (m : Measure) : ℚ := m.value * m.unit.toSI

/-- Measure::convertToUnit (common.cpp line 218). -/
def Measure.convertToUnit (m : Measure) (otherUnit : UnitOfMeasure) : Measure :=
  ⟨m.getSIValue / otherUnit.toSI, otherUnit⟩

/-- Modelled from the spec: `Measure::operator==` is declared in the
`common.hpp` header, which is not among the given sources. Per the data model
a Measure is the pair (value, unit) and units compare by name, so two measures
are equal when their values are equal and their units have the same name. -/
def Measure.beq (m1 m2 : Measure) : Bool :=
  m1.value == m2.value && m1.unit.uomName == m2.unit.uomName

/-- Scale constructor (common.cpp line 224): the unit is SCALE_UNITY. -/
def scaleOf (v : ℚ) : Measure := ⟨v, UnitOfMeasure.SCALE_UNITY⟩

/-- Ellipsoid state (src/src/datum.cpp, Ellipsoid::Private): a mandatory
semi-major axis plus at most one of an inverse flattening and a semi-minor
axis, depending on which constructor was used. -/
structure Ellipsoid where
  semiMajorAxis : Measure
  inverseFlattening : Option Measure
  semiMinorAxis : Option Measure
  deriving Repr, DecidableEq

/-- Ellipsoid::createSphere (datum.cpp line 301): radius only. -/
def Ellipsoid.createSphere (radius : Measure) : Ellipsoid := ⟨radius, none, none⟩

/-- Ellipsoid::createFlattenedSphere (datum.cpp line 311). -/
def Ellipsoid.createFlattenedSphere (a invFlattening : Measure) : Ellipsoid :=
  ⟨a, some invFlattening, none⟩

/-- Ellipsoid::createTwoAxis (datum.cpp line 323). -/
def Ellipsoid.createTwoAxis (a b : Measure) : Ellipsoid := ⟨a, none, some b⟩

/-- Ellipsoid::isSphere (datum.cpp lines 248-258): zero stored inverse
flattening, or equal axes in the two-axis form, or the radius-only form. -/
def Ellipsoid.isSphere (e : Ellipsoid) : Bool :=
  match e.inverseFlattening with
  | some f => f.value == 0
  | none =>
    match e.semiMinorAxis with
    | some b => Measure.beq e.semiMajorAxis b
    | none => true

/-- Ellipsoid::computeInverseFlattening (datum.cpp lines 268-280). In the
two-axis form the raw numeric values of the two axes are used, with a guard
returning 0 when they are equal. -/
def Ellipsoid.computeInverseFlattening (e : Ellipsoid) : Measure :=
  match e.inverseFlattening with
  | some f => f
  | none =>
    match e.semiMinorAxis with
    | some bm =>
      let a := e.semiMajorAxis.value
      let b := bm.value
      scaleOf (if a == b then 0 else a / (a - b))
    | none => scaleOf 0

/-- Ellipsoid::computeSemiMinorAxis (datum.cpp lines 284-296): the stored
semi-minor axis when present, else (1 - 1/rf) times the semi-major value in
the semi-major unit, else the semi-major axis itself. -/
def Ellipsoid.computeSemiMinorAxis (e : Ellipsoid) : Measure :=
  match e.semiMinorAxis with
  | some b => b
  | none =>
    match e.inverseFlattening with
    | some f => ⟨(1 - 1 / f.getSIValue) * e.semiMajorAxis.value, e.semiMajorAxis.unit⟩
    | none => e.semiMajorAxis

/-- The ellipsoid rebuilt from the semi-major axis and the derived inverse
flattening, as in the round-trip property of the spec (section 8). -/
def Ellipsoid.roundTripViaInverseFlattening (e : Ellipsoid) : Ellipsoid :=
  Ellipsoid.createFlattenedSphere e.semiMajorAxis e.computeInverseFlattening

/-- Example two-axis ellipsoid whose semi-major axis is in metres and whose
semi-minor axis is in kilometres (value 6356.752317 km = 6356752.317 m). -/
def mixedUnitEllipsoid : Ellipsoid :=
  Ellipsoid.createTwoAxis ⟨6378137, UnitOfMeasure.METRE⟩
    ⟨6356752317 / 1000000, ⟨"kilometre", 1000⟩⟩

/-- The WGS 84 ellipsoid, EPSG:7030 (datum.cpp line 333): semi-major
6378137 m, inverse flattening 298.257223563. -/
def wgs84Ellipsoid : Ellipsoid :=
  Ellipsoid.createFlattenedSphere ⟨6378137, UnitOfMeasure.METRE⟩
    (scaleOf (298257223563 / 1000000000))

/-- Modelled from the spec: the AxisDirection code-list singletons are
declared in `coordinatesystem_internal.hpp`, which is not among the given
sources; the data model lists the closed set of directions
(east, west, north, south, up, down, geocentric X/Y/Z, future, past, other,
unspecified). -/
inductive AxisDirection where
  | north
  | south
  | east
  | west
  | up
  | down
  | geocentricX
  | geocentricY
  | geocentricZ
  | future
  | past
  | other
  | unspecified
  deriving Repr, DecidableEq

/-- Modelled from the spec: AxisDirection::toString produces the WKT2
lower-case tokens ("east", "north", "up", "geocentricX", ...). -/
def AxisDirection.toString : AxisDirection → String
  | .north => "north"
  | .south => "south"
  | .east => "east"
  | .west => "west"
  | .up => "up"
  | .down => "down"
  | .geocentricX => "geocentricX"
  | .geocentricY => "geocentricY"
  | .geocentricZ => "geocentricZ"
  | .future => "future"
  | .past => "past"
  | .other => "other"
  | .unspecified => "unspecified"

/-- Modelled from the spec: the restricted WKT1 axis-direction code list
("EAST", "NORTH", "UP", "DOWN", "OTHER"); `AxisDirectionWKT1::valueOf`
(coordinatesystem.cpp line 638) returns null exactly for strings outside this
list. -/
def axisDirectionWKT1Keys : List String := ["EAST", "NORTH", "UP", "DOWN", "OTHER"]

/-- Upper-casing helper (internal::toupper of the source's internal string
utilities), written over the character data so it evaluates by reduction. -/
def strToUpper (s : String) : String := String.mk (s.data.map Char.toUpper)

/-- Lower-casing helper (internal::tolower). -/
def strToLower (s : String) : String := String.mk (s.data.map Char.toLower)

/-- The direction token emitted for an axis by
CoordinateSystemAxis::exportToWKT (coordinatesystem.cpp lines 216 and
241-248): WKT2 keeps the toString token unchanged; WKT1 upper-cases it, then
emits geocentric Z as NORTH and any token outside the WKT1 code list as
OTHER. -/
def axisDirectionWKTToken (isWKT2 : Bool) (d : AxisDirection) : String :=
  let dir := AxisDirection.toString d
  if !isWKT2 then
    let dir1 := strToUpper dir
    if d = AxisDirection.geocentricZ then "NORTH"
    else if axisDirectionWKT1Keys.contains dir1 then dir1
    else "OTHER"
  else dir

/-- Restatement of the specification sentence for the WKT1 direction token,
used to compare against the code: upper-cased name when in the restricted
subset, NORTH for geocentric Z, OTHER for everything else. -/
def claimedWKT1DirectionToken (d : AxisDirection) : String :=
  let upper := strToUpper (AxisDirection.toString d)
  if axisDirectionWKT1Keys.contains upper then upper
  else if d = AxisDirection.geocentricZ then "NORTH"
  else "OTHER"

/-- Coordinate system axis (coordinatesystem.cpp, CoordinateSystemAxis):
name, abbreviation, direction and unit. -/
structure Axis where
  axisName : String
  abbreviation : String
  direction : AxisDirection
  unit : UnitOfMeasure
  deriving Repr, DecidableEq

/-- Geodetic reference frame (datum.cpp, GeodeticReferenceFrame): an
ellipsoid, a prime meridian (its Greenwich longitude as an angle measure) and
an optional anchor description. The frame name participates only in STRICT
comparisons. -/
structure GeodeticReferenceFrame where
  frameName : String
  ellipsoid : Ellipsoid
  primeMeridianLongitude : Measure
  anchor : Option String
  deriving Repr, DecidableEq

/-- A datum of any kind, as discriminated by the dynamic casts in
checkEnsembleForGeodeticCRS / checkEnsembleForVerticalCRS (crs.cpp lines
501-521 and 1237-1257). -/
inductive AnyDatum where
  | geodeticFrame (frame : GeodeticReferenceFrame)
  | verticalFrame (frameName : String)
  | otherDatum (frameName : String)
  deriving Repr, DecidableEq

/-- Datum ensemble (spec section 3): a non-empty list of datums, here a first
datum plus the rest, so emptiness is excluded by construction as the code
asserts (crs.cpp line 512). -/
structure DatumEnsemble where
  firstDatum : AnyDatum
  restDatums : List AnyDatum
  deriving Repr, DecidableEq

/-- An operation parameter value: EPSG code, name and measured value. -/
structure OpParamValue where
  epsgCode : Nat
  paramName : String
  paramValue : Measure
  deriving Repr, DecidableEq

/-- Conversion payload (operation method plus parameter values). The class
itself lives in coordinateoperation.cpp, outside the given sources; only the
data the CRS code consults is modelled. -/
structure Conversion where
  methodName : String
  methodEPSGCode : Nat
  parameters : List OpParamValue
  deriving Repr, DecidableEq

/-- Transformation payload. The class lives in coordinateoperation.cpp,
outside the given sources; the fields the CRS code consults (method identity,
parameter values, grid file names) are modelled. -/
structure Transformation where
  methodName : String
  methodEPSGCode : Nat
  parameters : List OpParamValue
  ntv2Filename : Option String
  heightToGeographic3DFilename : Option String
  deriving Repr, DecidableEq

/-- Modelled from the spec: `Transformation::isLongitudeRotation` (declared
in coordinateoperation.cpp, not among the given sources) is true when the
method is "Longitude rotation" (EPSG:9601). -/
def Transformation.isLongitudeRotation (t : Transformation) : Bool :=
  t.methodEPSGCode == 9601

/-- Modelled from the spec: the arc-second angular unit (SI factor is the
degree factor divided by 3600). -/
def UnitOfMeasure.ARC_SECOND : UnitOfMeasure :=
  ⟨"arc-second", 174532925199433 / 10000000000000000 / 3600⟩

/-- Modelled from the spec: the parts-per-million scale unit. -/
def UnitOfMeasure.PARTS_PER_MILLION : UnitOfMeasure :=
  ⟨"parts per million", 1 / 1000000⟩

/-- Look up a parameter value by EPSG code. -/
def findParameter (params : List OpParamValue) (code : Nat) : Option Measure :=
  (params.find? (fun p => p.epsgCode == code)).map (fun p => p.paramValue)

/-- EPSG method codes of the 3-parameter geocentric-translation Helmert
variants (spec section 4.5). -/
def helmert3ParamCodes : List Nat := [1031, 9603, 1035]

/-- EPSG method codes of the 7-parameter position-vector and coordinate-frame
Helmert variants (spec section 4.5). -/
def helmert7ParamCodes : List Nat := [9606, 1033, 1037, 9607, 1032, 1038]

/-- Modelled from the spec: `Transformation::getTOWGS84Parameters` (declared
in coordinateoperation.cpp, not among the given sources) returns the tuple
(tx,ty,tz,rx,ry,rz,s) when the method is one of the Helmert variants, finding
parameters by EPSG code and converting them to metres, arc-seconds and parts
per million; otherwise it fails. -/
def Transformation.getTOWGS84Parameters (t : Transformation) : Except String (List ℚ) :=
  let conv := fun (code : Nat) (u : UnitOfMeasure) =>
    match findParameter t.parameters code with
    | some m => Except.ok (m.convertToUnit u).value
    | none => Except.error "missing parameter"
  if helmert3ParamCodes.contains t.methodEPSGCode then do
    let tx ← conv 8605 UnitOfMeasure.METRE
    let ty ← conv 8606 UnitOfMeasure.METRE
    let tz ← conv 8607 UnitOfMeasure.METRE
    pure [tx, ty, tz, 0, 0, 0, 0]
  else if helmert7ParamCodes.contains t.methodEPSGCode then do
    let tx ← conv 8605 UnitOfMeasure.METRE
    let ty ← conv 8606 UnitOfMeasure.METRE
    let tz ← conv 8607 UnitOfMeasure.METRE
    let rx ← conv 8608 UnitOfMeasure.ARC_SECOND
    let ry ← conv 8609 UnitOfMeasure.ARC_SECOND
    let rz ← conv 8610 UnitOfMeasure.ARC_SECOND
    let s ← conv 8611 UnitOfMeasure.PARTS_PER_MILLION
    pure [tx, ty, tz, rx, ry, rz, s]
  else
    Except.error "Transformation cannot be formatted as WKT1 TOWGS84 parameters"

/-- The CRS object graph (src/src/crs.cpp), as a closed sum of the variants
the verified operations dispatch on. GeographicCRS and geocentric GeodeticCRS
carry exactly the SingleCRS state (datum or datum ensemble plus the axes of
the coordinate system); ProjectedCRS carries its base CRS, deriving
conversion and Cartesian axes; BoundCRS carries base, hub and transformation
(its name is the base name, set by BoundCRS::create). -/
inductive CRS where
  | geographic (crsName : String) (datum : Option GeodeticReferenceFrame)
      (ensemble : Option DatumEnsemble) (axes : List Axis)
  | geodetic (crsName : String) (datum : Option GeodeticReferenceFrame)
      (ensemble : Option DatumEnsemble) (axes : List Axis)
  | vertical (crsName : String) (datum : Option String)
      (ensemble : Option DatumEnsemble) (axes : List Axis)
  | projected (crsName : String) (base : CRS) (conv : Conversion) (axes : List Axis)
  | compound (crsName : String) (components : List CRS)
  | bound (crsName : String) (base : CRS) (hub : CRS) (transf : Transformation)
  | engineering (crsName : String)

/-- IdentifiedObject::nameStr of a CRS. -/
def CRS.nameStr : CRS → String
  | .geographic n _ _ _ => n
  | .geodetic n _ _ _ => n
  | .vertical n _ _ _ => n
  | .projected n _ _ _ => n
  | .compound n _ => n
  | .bound n _ _ _ => n
  | .engineering n => n

/-- checkEnsembleForGeodeticCRS (crs.cpp lines 501-521): with a datum, the
ensemble must be absent; without a datum, the ensemble must be present and
its first member must be a GeodeticReferenceFrame. -/
def checkEnsembleForGeodeticCRS (datum : Option GeodeticReferenceFrame)
    (ensemble : Option DatumEnsemble) : Except String (Option DatumEnsemble) :=
  match datum, ensemble with
  | some _, none => Except.ok none
  | some _, some _ => Except.error "Datum and DatumEnsemble should not be defined"
  | none, some e =>
    match e.firstDatum with
    | .geodeticFrame _ => Except.ok (some e)
    | _ => Except.error "Ensemble should contain GeodeticReferenceFrame"
  | none, none => Except.error "One of Datum or DatumEnsemble should be defined"

/-- checkEnsembleForVerticalCRS (crs.cpp lines 1237-1257), the analogue for
vertical reference frames. -/
def checkEnsembleForVerticalCRS (datum : Option String)
    (ensemble : Option DatumEnsemble) : Except String (Option DatumEnsemble) :=
  match datum, ensemble with
  | some _, none => Except.ok none
  | some _, some _ => Except.error "Datum and DatumEnsemble should not be defined"
  | none, some e =>
    match e.firstDatum with
    | .verticalFrame _ => Except.ok (some e)
    | _ => Except.error "Ensemble should contain VerticalReferenceFrame"
  | none, none => Except.error "One of Datum or DatumEnsemble should be defined"

/-- SingleCRS::Private constructor check (crs.cpp lines 377-392): exactly one
of datum and datum ensemble must be set. -/
def singleCRSDatumCheck (datumSet ensembleSet : Bool) : Except String Unit :=
  if (cond datumSet 1 0) + (cond ensembleSet 1 0) ≠ 1 then
    Except.error "datum or datumEnsemble should be set"
  else
    Except.ok ()

/-- GeodeticCRS::create (crs.cpp lines 527-550 and 685-695): the ensemble is
filtered through checkEnsembleForGeodeticCRS, then the SingleCRS constructor
enforces the exactly-one invariant. -/
def GeodeticCRS.create (crsName : String) (datum : Option GeodeticReferenceFrame)
    (ensemble : Option DatumEnsemble) (axes : List Axis) : Except String CRS :=
  match checkEnsembleForGeodeticCRS datum ensemble with
  | .error msg => .error msg
  | .ok checkedEnsemble =>
    match singleCRSDatumCheck datum.isSome checkedEnsemble.isSome with
    | .error msg => .error msg
    | .ok _ => .ok (CRS.geodetic crsName datum checkedEnsemble axes)

/-- GeographicCRS constructor (crs.cpp lines 949-955): same checks as
GeodeticCRS. -/
def GeographicCRS.create (crsName : String) (datum : Option GeodeticReferenceFrame)
    (ensemble : Option DatumEnsemble) (axes : List Axis) : Except String CRS :=
  match checkEnsembleForGeodeticCRS datum ensemble with
  | .error msg => .error msg
  | .ok checkedEnsemble =>
    match singleCRSDatumCheck datum.isSome checkedEnsemble.isSome with
    | .error msg => .error msg
    | .ok _ => .ok (CRS.geographic crsName datum checkedEnsemble axes)

/-- VerticalCRS constructor (crs.cpp lines 1262-1267 and 1438-1447). -/
def VerticalCRS.create (crsName : String) (datum : Option String)
    (ensemble : Option DatumEnsemble) (axes : List Axis) : Except String CRS :=
  match checkEnsembleForVerticalCRS datum ensemble with
  | .error msg => .error msg
  | .ok checkedEnsemble =>
    match singleCRSDatumCheck datum.isSome checkedEnsemble.isSome with
    | .error msg => .error msg
    | .ok _ => .ok (CRS.vertical crsName datum checkedEnsemble axes)

mutual

/-- CRS::extractGeodeticCRSRaw (crs.cpp lines 144-167): a geodetic (or
geographic) CRS yields itself; a projected or bound CRS recurses into its
base; a compound CRS returns the first component that yields one; everything
else yields nothing. -/
def CRS.extractGeodeticCRSRaw : CRS → Option CRS
  | c@(.geographic _ _ _ _) => some c
  | c@(.geodetic _ _ _ _) => some c
  | .projected _ base _ _ => CRS.extractGeodeticCRSRaw base
  | .compound _ comps => extractGeodeticCRSRawFromList comps
  | .bound _ base _ _ => CRS.extractGeodeticCRSRaw base
  | .vertical _ _ _ _ => none
  | .engineering _ => none

/-- The loop over compound components inside CRS::extractGeodeticCRSRaw
(crs.cpp lines 155-160). -/
def extractGeodeticCRSRawFromList : List CRS → Option CRS
  | [] => none
  | c :: rest =>
    match CRS.extractGeodeticCRSRaw c with
    | some g => some g
    | none => extractGeodeticCRSRawFromList rest

end

/-- True exactly for the GeographicCRS variant, as decided by
dynamic_cast<GeographicCRS>. -/
def CRS.isGeographicVariant : CRS → Bool
  | .geographic _ _ _ _ => true
  | _ => false

/-- CRS::extractGeographicCRS (crs.cpp lines 180-187): the raw extracted
geodetic CRS, dynamically cast to GeographicCRS. -/
def CRS.extractGeographicCRS (c : CRS) : Option CRS :=
  match c.extractGeodeticCRSRaw with
  | some g => if g.isGeographicVariant then some g else none
  | none => none

mutual

/-- Restatement of the claimed walk for extract_geographic_crs, used to
compare against the code: a CompoundCRS is claimed to return the first
component yielding a GeographicCRS. -/
def claimedExtractGeographicCRS : CRS → Option CRS
  | c@(.geographic _ _ _ _) => some c
  | .projected _ base _ _ => claimedExtractGeographicCRS base
  | .compound _ comps => claimedExtractGeographicFromList comps
  | .bound _ base _ _ => claimedExtractGeographicCRS base
  | _ => none

/-- First component of a compound CRS yielding a GeographicCRS under the
claimed walk. -/
def claimedExtractGeographicFromList : List CRS → Option CRS
  | [] => none
  | c :: rest =>
    match claimedExtractGeographicCRS c with
    | some g => some g
    | none => claimedExtractGeographicFromList rest

end

/-- CRS::stripVerticalComponent (crs.cpp lines 343-372): a 3-axis geographic
CRS is rebuilt with its first two axes, same name, datum and datum ensemble;
a 3-axis projected CRS is rebuilt with its first two axes, same name, base
CRS and deriving conversion; every other CRS is returned unchanged. -/
def CRS.stripVerticalComponent : CRS → CRS
  | c@(.geographic n d e axes) =>
    match axes with
    | [a0, a1, _] => CRS.geographic n d e [a0, a1]
    | _ => c
  | c@(.projected n base conv axes) =>
    match axes with
    | [a0, a1, _] => CRS.projected n base conv [a0, a1]
    | _ => c
  | c => c

/-- Shape predicate: 3-axis geographic or 3-axis projected CRS (the two
cases stripVerticalComponent rewrites). -/
def CRS.is3DGeographicOr3DProjected : CRS → Bool
  | .geographic _ _ _ [_, _, _] => true
  | .projected _ _ _ [_, _, _] => true
  | _ => false

/-- The name-joining loop of CompoundCRS::create (crs.cpp lines 1979-1996):
components are joined with " + ", an empty component name contributing
"unnamed". -/
def compoundNameStep (acc : String) (c : CRS) : String :=
  let acc1 := if acc.isEmpty then acc else acc ++ " + "
  let ln := c.nameStr
  acc1 ++ (if ln.isEmpty then "unnamed" else ln)

/-- The fold of compoundNameStep over the components, starting empty. -/
def compoundCRSNameFromComponents (components : List CRS) : String :=
  components.foldl compoundNameStep ""

/-- CompoundCRS::create (crs.cpp lines 1974-1999): the name property is used
when present, otherwise the joined component names. -/
def CompoundCRS.create (nameProperty : Option String) (components : List CRS) : CRS :=
  match nameProperty with
  | some n => CRS.compound n components
  | none => CRS.compound (compoundCRSNameFromComponents components) components

/-- Restatement of the claimed compound name, used to compare against the
code: component names joined in order with " + ", with "unnamed" substituted
for empty names. -/
def claimedCompoundName : List CRS → String
  | [] => ""
  | [c] => if c.nameStr.isEmpty then "unnamed" else c.nameStr
  | c :: rest =>
    (if c.nameStr.isEmpty then "unnamed" else c.nameStr) ++ " + " ++ claimedCompoundName rest

/-- Modelled from the spec (section 4.3): ellipsoid equivalence compares the
semi-major axes in SI and either the flattenings or the semi-minor axes
within a relative tolerance of one part in 1e8. The implementation lives
outside the given sources. -/
def ellipsoidEquiv (e1 e2 : Ellipsoid) : Bool :=
  e1.semiMajorAxis.getSIValue == e2.semiMajorAxis.getSIValue &&
  (e1.computeInverseFlattening.getSIValue == e2.computeInverseFlattening.getSIValue ||
    decide (abs (e1.computeSemiMinorAxis.getSIValue - e2.computeSemiMinorAxis.getSIValue)
      * 100000000 ≤ abs e2.computeSemiMinorAxis.getSIValue))

/-- Modelled from the spec (section 4.3): prime meridian equivalence is
longitude equality after SI conversion. -/
def primeMeridianEquiv (m1 m2 : Measure) : Bool :=
  m1.getSIValue == m2.getSIValue

/-- Modelled from the spec (section 4.3): geodetic reference frames are
equivalent when ellipsoid, prime meridian and anchor all are (names are
ignored under the EQUIVALENT criterion). -/
def grfEquiv (g1 g2 : GeodeticReferenceFrame) : Bool :=
  ellipsoidEquiv g1.ellipsoid g2.ellipsoid &&
  primeMeridianEquiv g1.primeMeridianLongitude g2.primeMeridianLongitude &&
  g1.anchor == g2.anchor

/-- Modelled from the spec (section 4.7): coordinate-system equivalence under
the EQUIVALENT criterion ignores axis names and compares directions and unit
factors, axis by axis. -/
def axesEquiv (ax1 ax2 : List Axis) : Bool :=
  ax1.length == ax2.length &&
  (List.zip ax1 ax2).all (fun p =>
    p.1.direction == p.2.direction && p.1.unit.toSI == p.2.unit.toSI)

/-- The SingleCRS comparison core of SingleCRS::_isEquivalentTo (crs.cpp
lines 448-465): a presence mismatch of the datum fails; present datums must
be equivalent; the coordinate systems must be equivalent (the datum ensemble
is not compared, as in the code). -/
def geodeticContentEquiv (d1 : Option GeodeticReferenceFrame) (ax1 : List Axis)
    (d2 : Option GeodeticReferenceFrame) (ax2 : List Axis) : Bool :=
  d1.isSome == d2.isSome &&
  (match d1, d2 with
   | some g1, some g2 => grfEquiv g1 g2
   | _, _ => true) &&
  axesEquiv ax1 ax2

/-- GeodeticCRS::isEquivalentTo under the EQUIVALENT criterion (crs.cpp
lines 910-916), restricted to the geodetic family; CRSes of different
coordinate-system kinds (an ellipsoidal against a Cartesian geocentric one)
are never equivalent. -/
def crsEquivalent (c1 c2 : CRS) : Bool :=
  match c1, c2 with
  | .geographic _ d1 _ ax1, .geographic _ d2 _ ax2 => geodeticContentEquiv d1 ax1 d2 ax2
  | .geodetic _ d1 _ ax1, .geodetic _ d2 _ ax2 => geodeticContentEquiv d1 ax1 d2 ax2
  | _, _ => false

/-- The WGS 84 geodetic reference frame, EPSG:6326. -/
def wgs84Frame : GeodeticReferenceFrame :=
  ⟨"World Geodetic System 1984", wgs84Ellipsoid, ⟨0, UnitOfMeasure.DEGREE⟩, none⟩

/-- Latitude axis of EllipsoidalCS::createLatitudeLongitude
(coordinatesystem.cpp lines 459-467). -/
def latitudeAxis : Axis := ⟨"Latitude", "lat", AxisDirection.north, UnitOfMeasure.DEGREE⟩

/-- Longitude axis of EllipsoidalCS::createLatitudeLongitude. -/
def longitudeAxis : Axis := ⟨"Longitude", "lon", AxisDirection.east, UnitOfMeasure.DEGREE⟩

/-- GeographicCRS::createEPSG_4326 (crs.cpp lines 1087-1092): WGS 84 with a
latitude/longitude ellipsoidal CS in degrees. -/
def EPSG_4326 : CRS :=
  CRS.geographic "WGS 84" (some wgs84Frame) none [latitudeAxis, longitudeAxis]

/-- GeodeticCRS::createEPSG_4978 (crs.cpp lines 930-935): geocentric WGS 84
with a Cartesian geocentric CS in metres. -/
def EPSG_4978 : CRS :=
  CRS.geodetic "WGS 84" (some wgs84Frame) none
    [⟨"Geocentric X", "X", AxisDirection.geocentricX, UnitOfMeasure.METRE⟩,
     ⟨"Geocentric Y", "Y", AxisDirection.geocentricY, UnitOfMeasure.METRE⟩,
     ⟨"Geocentric Z", "Z", AxisDirection.geocentricZ, UnitOfMeasure.METRE⟩]

/-- A coordinate operation as produced by the coordinate-operation factory,
as discriminated by the dynamic casts in createBoundCRSToWGS84IfPossible
(crs.cpp lines 283-329). -/
inductive CoordOperation where
  | transformation (t : Transformation)
  | conversion (c : Conversion)
  | concatenated (ops : List CoordOperation)
  | pointMotion

/-- True exactly for the BoundCRS variant. -/
def CRS.isBoundVariant : CRS → Bool
  | .bound _ _ _ _ => true
  | _ => false

/-- True exactly for the geodetic family (dynamic_cast<GeodeticCRS>). -/
def CRS.isGeodeticVariant : CRS → Bool
  | .geographic _ _ _ _ => true
  | .geodetic _ _ _ _ => true
  | _ => false

/-- True exactly for the DerivedCRS family, which among the modelled variants
is the ProjectedCRS (dynamic_cast<DerivedCRS>). -/
def CRS.isDerivedVariant : CRS → Bool
  | .projected _ _ _ _ => true
  | _ => false

/-- The body of the candidate loop of createBoundCRSToWGS84IfPossible
(crs.cpp lines 283-330): a transformation is usable when its TOWGS84
parameters can be produced; a two-step concatenated operation is usable via
its second step when the first is a longitude rotation (or a conversion and
the CRS is derived) and the second is a transformation with TOWGS84
parameters. Unusable candidates make the loop continue. -/
def usableTransformation (selfIsDerived : Bool) : CoordOperation → Option Transformation
  | .transformation t =>
    match t.getTOWGS84Parameters with
    | .ok _ => some t
    | .error _ => none
  | .concatenated subOps =>
    match subOps with
    | [firstOp, secondOp] =>
      let firstOk :=
        match firstOp with
        | .transformation ft => ft.isLongitudeRotation
        | .conversion _ => selfIsDerived
        | _ => false
      if firstOk then
        match secondOp with
        | .transformation t2 =>
          match t2.getTOWGS84Parameters with
          | .ok _ => some t2
          | .error _ => none
        | _ => none
      else none
    | _ => none
  | _ => none

/-- The boundCRS variable of createBoundCRSToWGS84IfPossible (crs.cpp lines
239-242): the CRS itself when it is a BoundCRS, else its canonical
BoundCRS. -/
def boundCRSSelection (self : CRS) (canonicalBound : Option CRS) : Option CRS :=
  if self.isBoundVariant then some self else canonicalBound

/-- The candidate search of createBoundCRSToWGS84IfPossible (crs.cpp lines
270-332). The coordinate-operation factory (which lives in
coordinateoperation.cpp, outside the given sources) is abstracted as the
`opsFromFactory` argument: an error stands for a thrown exception (caught by
the function, returning self), a list for the candidate operations returned;
the first usable candidate is wrapped into a BoundCRS around self. -/
def boundSearchResult (self : CRS) (hubCRS : CRS)
    (opsFromFactory : Except String (List CoordOperation)) : CRS :=
  match opsFromFactory with
  | .error _ => self
  | .ok list =>
    match list.findSome? (usableTransformation self.isDerivedVariant) with
    | some t => CRS.bound self.nameStr self hubCRS t
    | none => self

/-- The early-return value of createBoundCRSToWGS84IfPossible (crs.cpp lines
243-249): the selected BoundCRS when its hub is equivalent to EPSG:4326. -/
def boundCRSEarlyReturn (self : CRS) (canonicalBound : Option CRS) : Option CRS :=
  match boundCRSSelection self canonicalBound with
  | some b =>
    match b with
    | .bound _ _ hub _ => if crsEquivalent hub EPSG_4326 then some b else none
    | _ => none
  | none => none

/-- True when the CRS is a BoundCRS whose hub is equivalent to EPSG:4326
(the condition of the early return, crs.cpp lines 243-249). -/
def hubEquiv4326OfBound : CRS → Bool
  | .bound _ _ hub _ => crsEquivalent hub EPSG_4326
  | _ => false

/-- CRS::createBoundCRSToWGS84IfPossible (crs.cpp lines 235-334), main
dispatch: return the selected BoundCRS when its hub is equivalent to
EPSG:4326; return self when there is no extracted geographic CRS (and the CRS
is not geodetic) or when the extracted geographic CRS is equivalent to
EPSG:4326; otherwise run the candidate search against EPSG:4326, or against
EPSG:4978 for a geocentric geodetic CRS. -/
def CRS.createBoundCRSToWGS84IfPossible (self : CRS) (canonicalBound : Option CRS)
    (opsFromFactory : Except String (List CoordOperation)) : CRS :=
  match boundCRSEarlyReturn self canonicalBound with
  | some b => b
  | none =>
    let geogCRS := self.extractGeographicCRS
    if self.isGeodeticVariant && geogCRS.isNone then
      boundSearchResult self EPSG_4978 opsFromFactory
    else
      match geogCRS with
      | none => self
      | some g =>
        if crsEquivalent g EPSG_4326 then self
        else boundSearchResult self EPSG_4326 opsFromFactory

/-- Case-insensitive string comparison (ci_equal). -/
def ci_equal (a b : String) : Bool := strToLower a == strToLower b

/-- BoundCRS::isTOWGS84Compatible (crs.cpp lines 2239-2242): the hub must be
a GeodeticCRS named "WGS 84" (case-insensitively). -/
def isTOWGS84Compatible (hub : CRS) : Bool :=
  hub.isGeodeticVariant && ci_equal hub.nameStr "WGS 84"

/-- BoundCRS::getVDatumPROJ4GRIDS (crs.cpp lines 2255-2261): the
height-to-geographic-3D grid name when the base is vertical and the hub is
WGS 84, else empty. -/
def getVDatumPROJ4GRIDS (base hub : CRS) (t : Transformation) : String :=
  match base with
  | .vertical _ _ _ _ =>
    if ci_equal hub.nameStr "WGS 84" then t.heightToGeographic3DFilename.getD ""
    else ""
  | _ => ""

/-- BoundCRS::getHDatumPROJ4GRIDS (crs.cpp lines 2246-2251): the NTv2 grid
name when the hub is WGS 84, else empty. -/
def getHDatumPROJ4GRIDS (hub : CRS) (t : Transformation) : String :=
  if ci_equal hub.nameStr "WGS 84" then t.ntv2Filename.getD "" else ""

/-- The PROJ-string output conventions (io.hpp): PROJ_5 is the pipeline
convention, PROJ_4 the legacy flat convention. -/
inductive PROJConvention where
  | PROJ_4
  | PROJ_5
  deriving Repr, DecidableEq

/-- The formatter state a BoundCRS installs before delegating to its base CRS
in PROJ_4 convention: vertical-datum grid extension, horizontal-datum grid
extension, and TOWGS84 parameters. -/
structure PROJFormatterExtensionState where
  vDatumExtension : Option String
  hDatumExtension : Option String
  towgs84Parameters : List ℚ
  deriving Repr, DecidableEq

/-- BoundCRS::_exportToPROJString (crs.cpp lines 2314-2351). In PROJ_5
(pipeline) convention the function throws before producing any output; in
PROJ_4 convention it installs the appropriate extension state and delegates
to the base CRS, abstracted here as the `baseExport` continuation. All
modelled base CRS variants are PROJ-string exportable, so the
IPROJStringExportable cast never fails here. -/
def BoundCRS.exportToPROJString (convention : PROJConvention)
    (base hub : CRS) (t : Transformation)
    (baseExport : PROJFormatterExtensionState → Except String (List String)) :
    Except String (List String) :=
  if convention = PROJConvention.PROJ_5 then
    Except.error "BoundCRS cannot be exported as a PROJ.5 string, but its baseCRS might"
  else
    let vdatum := getVDatumPROJ4GRIDS base hub t
    if !vdatum.isEmpty then baseExport ⟨some vdatum, none, []⟩
    else
      let hdatum := getHDatumPROJ4GRIDS hub t
      if !hdatum.isEmpty then baseExport ⟨none, some hdatum, []⟩
      else if isTOWGS84Compatible hub then
        match t.getTOWGS84Parameters with
        | .ok params => baseExport ⟨none, none, params⟩
        | .error e => Except.error e
      else baseExport ⟨none, none, []⟩

/-- A Conversion object of the weak-reference model (spec section 9): the
operation payload plus the weak source and target CRS references, addresses
into the object store. -/
structure ConversionObj where
  payload : Conversion
  sourceCRS : Option Nat
  targetCRS : Option Nat
  deriving Repr, DecidableEq

/-- A ProjectedCRS object of the weak-reference model: its name, the address
of its base CRS, its owned deriving conversion and its Cartesian axes. -/
structure ProjectedCRSObj where
  objName : String
  baseCRS : Nat
  derivingConversion : ConversionObj
  axes : List Axis
  deriving Repr, DecidableEq

/-- The object store for ProjectedCRS objects; an address is an index into
the list and allocation appends. -/
structure ProjectedCRSStore where
  objs : List ProjectedCRSObj
  deriving Repr, DecidableEq

/-- DerivedCRS::setDerivingConversionCRS (crs.cpp lines 1563-1567): sets the
conversion's weak source to the base CRS and its weak target to the owning
CRS itself. `setWeakSourceTargetCRS` lives in coordinateoperation.cpp,
outside the given sources; per the spec (section 9) it assigns the two weak
references. -/
def setDerivingConversionCRS (obj : ProjectedCRSObj) (selfAddr : Nat) : ProjectedCRSObj :=
  { obj with derivingConversion :=
      { obj.derivingConversion with
          sourceCRS := some obj.baseCRS
          targetCRS := some selfAddr } }

/-- ProjectedCRS::create (crs.cpp lines 1814-1825): allocates the object,
assigns self, and rebinds the deriving conversion to the base and to the new
object itself. Returns the new store and the address of the new object. -/
def ProjectedCRS.create (st : ProjectedCRSStore) (crsName : String) (base : Nat)
    (conv : Conversion) (axes : List Axis) : ProjectedCRSStore × Nat :=
  let addr := st.objs.length
  let obj := setDerivingConversionCRS ⟨crsName, base, ⟨conv, none, none⟩, axes⟩ addr
  (⟨st.objs ++ [obj]⟩, addr)

/-- ProjectedCRS::shallowClone (crs.cpp lines 1640-1645): copies the object
(the copy constructor of DerivedCRS::Private shallow-clones the owned
conversion, crs.cpp lines 1470-1474), assigns self, and rebinds the cloned
conversion to the clone. An invalid address leaves the store unchanged. -/
def ProjectedCRS.shallowClone (st : ProjectedCRSStore) (addr : Nat) :
    ProjectedCRSStore × Nat :=
  match st.objs[addr]? with
  | none => (st, addr)
  | some obj =>
    let addr2 := st.objs.length
    let obj2 := setDerivingConversionCRS obj addr2
    (⟨st.objs ++ [obj2]⟩, addr2)

/-- The display name a component contributes to a compound CRS name: its name,
or "unnamed" when empty (crs.cpp lines 1987-1991). -/
def componentDisplayName (c : CRS) : String :=
  if c.nameStr.isEmpty then "unnamed" else c.nameStr

/-- The tail of the claimed joined compound name: a " + " separator before
each further component display name. -/
def claimedTailJoin : List CRS → String
  | [] => ""
  | c :: rest => " + " ++ componentDisplayName c ++ claimedTailJoin rest

/-- Example geocentric geodetic CRS (a GeodeticCRS that is not a
GeographicCRS). -/
def geocentricExample : CRS := CRS.geodetic "geocentric example" (some wgs84Frame) none []

/-- Example compound CRS whose first component yields a geodetic CRS that is
not geographic while the second component is a GeographicCRS. -/
def compoundGeocentricFirst : CRS :=
  CRS.compound "compound example" [geocentricExample, EPSG_4326]

/-- The International 1924 ellipsoid (semi-major 6378388 m, inverse
flattening 297). -/
def intlEllipsoid : Ellipsoid :=
  Ellipsoid.createFlattenedSphere ⟨6378388, UnitOfMeasure.METRE⟩ (scaleOf 297)

/-- A geodetic reference frame on the International 1924 ellipsoid. -/
def intlFrame : GeodeticReferenceFrame :=
  ⟨"International 1924", intlEllipsoid, ⟨0, UnitOfMeasure.DEGREE⟩, none⟩

/-- Example geographic CRS that is not equivalent to EPSG:4326. -/
def intlGeogCRS : CRS :=
  CRS.geographic "intl geog" (some intlFrame) none [latitudeAxis, longitudeAxis]

/-- Example position-vector Helmert transformation (EPSG:9606) whose TOWGS84
parameters are (1,2,3,4,5,6,7). -/
def helmertExample : Transformation :=
  ⟨"Position Vector transformation (geog2D domain)", 9606,
    [⟨8605, "X-axis translation", ⟨1, UnitOfMeasure.METRE⟩⟩,
     ⟨8606, "Y-axis translation", ⟨2, UnitOfMeasure.METRE⟩⟩,
     ⟨8607, "Z-axis translation", ⟨3, UnitOfMeasure.METRE⟩⟩,
     ⟨8608, "X-axis rotation", ⟨4, UnitOfMeasure.ARC_SECOND⟩⟩,
     ⟨8609, "Y-axis rotation", ⟨5, UnitOfMeasure.ARC_SECOND⟩⟩,
     ⟨8610, "Z-axis rotation", ⟨6, UnitOfMeasure.ARC_SECOND⟩⟩,
     ⟨8611, "Scale difference", ⟨7, UnitOfMeasure.PARTS_PER_MILLION⟩⟩],
    none, none⟩

/-- A canonical BoundCRS for intlGeogCRS whose hub is EPSG:4326, as installed
by BoundCRS::baseCRSWithCanonicalBoundCRS (crs.cpp lines 2146-2150). -/
def canonicalBoundExample : CRS :=
  CRS.bound "intl geog" intlGeogCRS EPSG_4326 helmertExample

/-- Example conversion payload (Transverse Mercator, EPSG:9807). -/
def tmConversion : Conversion := ⟨"Transverse Mercator", 9807, []⟩

/-- The object ProjectedCRS::create allocates for the example below: the
conversion weakly references base address 7 and the object address 0. -/
def exampleProjObj : ProjectedCRSObj := ⟨"P", 7, ⟨tmConversion, some 7, some 0⟩, []⟩

/-- A store holding one ProjectedCRS built by ProjectedCRS::create. -/
def exampleStore : ProjectedCRSStore := (ProjectedCRS.create ⟨[]⟩ "P" 7 tmConversion []).1

end ProjSpec


namespace ProjSpec

theorem componentDisplayName_ne_empty (c : CRS) : componentDisplayName c ≠ "" := by
  unfold componentDisplayName
  by_cases h : c.nameStr.isEmpty
  · simp [h]
  · simp [h]
    intro hc
    rw [hc] at h
    exact h rfl

theorem compoundNameStep_empty (c : CRS) :
    compoundNameStep "" c = componentDisplayName c := by
  show (if "".isEmpty then ("" : String) else "" ++ " + ")
      ++ (if c.nameStr.isEmpty then "unnamed" else c.nameStr) = _
  rw [if_pos (show "".isEmpty = true from rfl)]
  rw [String.empty_append]
  rfl

theorem compoundNameStep_ne (acc : String) (c : CRS) (h : acc ≠ "") :
    compoundNameStep acc c = acc ++ " + " ++ componentDisplayName c := by
  simp [compoundNameStep, componentDisplayName]
  rw [if_neg (by rwa [String.isEmpty_iff])]

theorem append_ne_empty_left (a b : String) (h : a ≠ "") : a ++ b ≠ "" := by
  intro hc
  apply h
  have hd := congrArg String.data hc
  simp [String.data_append] at hd
  exact String.ext hd.1

theorem foldl_compoundNameStep (l : List CRS) : ∀ acc : String, acc ≠ "" →
    List.foldl compoundNameStep acc l = acc ++ claimedTailJoin l := by
  induction l with
  | nil =>
    intro acc _
    simp [claimedTailJoin, String.append_empty]
  | cons c rest ih =>
    intro acc hacc
    rw [List.foldl_cons, compoundNameStep_ne acc c hacc]
    rw [ih _ (append_ne_empty_left _ _ (append_ne_empty_left _ _ hacc))]
    simp [claimedTailJoin, String.append_assoc]

theorem claimedCompoundName_cons : ∀ (l : List CRS) (c : CRS),
    claimedCompoundName (c :: l) = componentDisplayName c ++ claimedTailJoin l := by
  intro l
  induction l with
  | nil =>
    intro c
    simp [claimedCompoundName, claimedTailJoin, componentDisplayName, String.append_empty]
  | cons c2 rest ih =>
    intro c
    show (if c.nameStr.isEmpty then "unnamed" else c.nameStr) ++ " + "
        ++ claimedCompoundName (c2 :: rest) = _
    rw [ih c2]
    simp [claimedTailJoin, componentDisplayName, String.append_assoc]

theorem boundCRSEarlyReturn_eq_none (self : CRS) (canonical : Option CRS)
    (hne : ∀ b, boundCRSSelection self canonical = some b → hubEquiv4326OfBound b = false) :
    boundCRSEarlyReturn self canonical = none := by
  unfold boundCRSEarlyReturn
  cases hsel : boundCRSSelection self canonical with
  | none => rfl
  | some b =>
    have hb := hne b hsel
    cases b with
    | bound n bb hub t =>
      simp [hubEquiv4326OfBound] at hb
      simp [hb]
    | geographic n d e ax => rfl
    | geodetic n d e ax => rfl
    | vertical n d e ax => rfl
    | projected n bb cv ax => rfl
    | compound n comps => rfl
    | engineering n => rfl

theorem crsEquivalent_EPSG_4326_refl : crsEquivalent EPSG_4326 EPSG_4326 = true := by
  simp [crsEquivalent, EPSG_4326, geodeticContentEquiv, grfEquiv, ellipsoidEquiv,
    primeMeridianEquiv, axesEquiv, wgs84Frame, latitudeAxis, longitudeAxis]

/-- C1: every ProjectedCRS built by ProjectedCRS::create has a deriving
conversion whose weak source reference is the base CRS and whose weak target
reference is the ProjectedCRS itself, and ProjectedCRS::shallowClone
allocates a clone whose own cloned conversion is re-bound to the clone (same
source, target = the clone's address) while all previously stored objects,
the original included, are left untouched. -/
theorem c1_projected_crs_conversion_self_reference :
    (∀ (st : ProjectedCRSStore) (n : String) (base : Nat) (conv : Conversion)
        (axes : List Axis),
      ((ProjectedCRS.create st n base conv axes).1.objs[(ProjectedCRS.create st n base conv axes).2]?).map
          (fun o => (o.derivingConversion.sourceCRS, o.derivingConversion.targetCRS))
        = some (some base, some (ProjectedCRS.create st n base conv axes).2))
    ∧ (∀ (st : ProjectedCRSStore) (addr : Nat) (obj : ProjectedCRSObj),
        st.objs[addr]? = some obj →
      ((ProjectedCRS.shallowClone st addr).2 = st.objs.length
        ∧ (ProjectedCRS.shallowClone st addr).2 ≠ addr
        ∧ ((ProjectedCRS.shallowClone st addr).1.objs[(ProjectedCRS.shallowClone st addr).2]?).map
            (fun o => (o.derivingConversion.sourceCRS, o.derivingConversion.targetCRS))
          = some (some obj.baseCRS, some (ProjectedCRS.shallowClone st addr).2)
        ∧ (∀ i, i < st.objs.length →
            (ProjectedCRS.shallowClone st addr).1.objs[i]? = st.objs[i]?))) := by
  constructor
  · intro st n base conv axes
    simp [ProjectedCRS.create, setDerivingConversionCRS]
  · intro st addr obj hobj
    have haddr : addr < st.objs.length := by
      have := List.getElem?_eq_some.mp hobj
      exact this.1
    refine ⟨?_, ?_, ?_, ?_⟩
    · simp [ProjectedCRS.shallowClone, hobj]
    · simp [ProjectedCRS.shallowClone, hobj]
      omega
    · simp [ProjectedCRS.shallowClone, hobj, setDerivingConversionCRS]
    · intro i hi
      simp [ProjectedCRS.shallowClone, hobj]
      rw [List.getElem?_append_left hi]

/-- Witness for C1: in a store holding the single ProjectedCRS built by
create (base address 7, own address 0, conversion re-bound to 7 and 0),
shallowClone allocates address 1, re-binds the cloned conversion to target 1,
and leaves object 0 untouched. -/
theorem c1_projected_crs_conversion_self_reference_witness :
    exampleStore.objs[0]? = some exampleProjObj
    ∧ ((ProjectedCRS.shallowClone exampleStore 0).2 = exampleStore.objs.length
      ∧ (ProjectedCRS.shallowClone exampleStore 0).2 ≠ 0
      ∧ ((ProjectedCRS.shallowClone exampleStore 0).1.objs[(ProjectedCRS.shallowClone exampleStore 0).2]?).map
          (fun o => (o.derivingConversion.sourceCRS, o.derivingConversion.targetCRS))
        = some (some exampleProjObj.baseCRS, some (ProjectedCRS.shallowClone exampleStore 0).2)
      ∧ (∀ i, i < exampleStore.objs.length →
          (ProjectedCRS.shallowClone exampleStore 0).1.objs[i]? = exampleStore.objs[i]?)) :=
  ⟨rfl, c1_projected_crs_conversion_self_reference.2 exampleStore 0 exampleProjObj rfl⟩

/-- C2: constructing a GeodeticCRS, GeographicCRS or VerticalCRS with both a
datum and a datum ensemble, or with neither, yields a structured error and no
object; every successful construction has exactly one of the two set, and the
constructed CRS stores them as given. -/
theorem c2_single_crs_exactly_one_datum :
    (∀ (n : String) d e ax, ((d.isSome && e.isSome) || (d.isNone && e.isNone)) = true →
      ∃ msg, GeodeticCRS.create n d e ax = Except.error msg)
    ∧ (∀ (n : String) d e ax, ((d.isSome && e.isSome) || (d.isNone && e.isNone)) = true →
      ∃ msg, GeographicCRS.create n d e ax = Except.error msg)
    ∧ (∀ (n : String) d e ax, ((d.isSome && e.isSome) || (d.isNone && e.isNone)) = true →
      ∃ msg, VerticalCRS.create n d e ax = Except.error msg)
    ∧ (∀ (n : String) d e ax c, GeodeticCRS.create n d e ax = Except.ok c →
      d.isSome = !e.isSome ∧ c = CRS.geodetic n d e ax)
    ∧ (∀ (n : String) d e ax c, GeographicCRS.create n d e ax = Except.ok c →
      d.isSome = !e.isSome ∧ c = CRS.geographic n d e ax)
    ∧ (∀ (n : String) d e ax c, VerticalCRS.create n d e ax = Except.ok c →
      d.isSome = !e.isSome ∧ c = CRS.vertical n d e ax) := by
  refine ⟨?_, ?_, ?_, ?_, ?_, ?_⟩
  · intro n d e ax h
    cases d <;> cases e <;> simp at h <;> exact ⟨_, rfl⟩
  · intro n d e ax h
    cases d <;> cases e <;> simp at h <;> exact ⟨_, rfl⟩
  · intro n d e ax h
    cases d <;> cases e <;> simp at h <;> exact ⟨_, rfl⟩
  · intro n d e ax c h
    cases d with
    | some g =>
      cases e with
      | none =>
        refine ⟨rfl, ?_⟩
        simp [GeodeticCRS.create, checkEnsembleForGeodeticCRS, singleCRSDatumCheck] at h
        exact h.symm
      | some en => simp [GeodeticCRS.create, checkEnsembleForGeodeticCRS] at h
    | none =>
      cases e with
      | none => simp [GeodeticCRS.create, checkEnsembleForGeodeticCRS] at h
      | some en =>
        match hfd : en.firstDatum with
        | .geodeticFrame g =>
          refine ⟨rfl, ?_⟩
          simp [GeodeticCRS.create, checkEnsembleForGeodeticCRS, hfd, singleCRSDatumCheck] at h
          exact h.symm
        | .verticalFrame vn => simp [GeodeticCRS.create, checkEnsembleForGeodeticCRS, hfd] at h
        | .otherDatum od => simp [GeodeticCRS.create, checkEnsembleForGeodeticCRS, hfd] at h
  · intro n d e ax c h
    cases d with
    | some g =>
      cases e with
      | none =>
        refine ⟨rfl, ?_⟩
        simp [GeographicCRS.create, checkEnsembleForGeodeticCRS, singleCRSDatumCheck] at h
        exact h.symm
      | some en => simp [GeographicCRS.create, checkEnsembleForGeodeticCRS] at h
    | none =>
      cases e with
      | none => simp [GeographicCRS.create, checkEnsembleForGeodeticCRS] at h
      | some en =>
        match hfd : en.firstDatum with
        | .geodeticFrame g =>
          refine ⟨rfl, ?_⟩
          simp [GeographicCRS.create, checkEnsembleForGeodeticCRS, hfd, singleCRSDatumCheck] at h
          exact h.symm
        | .verticalFrame vn => simp [GeographicCRS.create, checkEnsembleForGeodeticCRS, hfd] at h
        | .otherDatum od => simp [GeographicCRS.create, checkEnsembleForGeodeticCRS, hfd] at h
  · intro n d e ax c h
    cases d with
    | some g =>
      cases e with
      | none =>
        refine ⟨rfl, ?_⟩
        simp [VerticalCRS.create, checkEnsembleForVerticalCRS, singleCRSDatumCheck] at h
        exact h.symm
      | some en => simp [VerticalCRS.create, checkEnsembleForVerticalCRS] at h
    | none =>
      cases e with
      | none => simp [VerticalCRS.create, checkEnsembleForVerticalCRS] at h
      | some en =>
        match hfd : en.firstDatum with
        | .verticalFrame vn =>
          refine ⟨rfl, ?_⟩
          simp [VerticalCRS.create, checkEnsembleForVerticalCRS, hfd, singleCRSDatumCheck] at h
          exact h.symm
        | .geodeticFrame g => simp [VerticalCRS.create, checkEnsembleForVerticalCRS, hfd] at h
        | .otherDatum od => simp [VerticalCRS.create, checkEnsembleForVerticalCRS, hfd] at h

/-- Witness for C2: creating without datum and without ensemble fails, and a
creation with only a datum succeeds with exactly one of the two set. -/
theorem c2_single_crs_exactly_one_datum_witness :
    (((some wgs84Frame).isSome && (none : Option DatumEnsemble).isSome)
      || ((some wgs84Frame).isNone && (none : Option DatumEnsemble).isNone)) = false
    ∧ (∃ msg, GeodeticCRS.create "no datum" (none : Option GeodeticReferenceFrame)
        (none : Option DatumEnsemble) [] = Except.error msg)
    ∧ (some wgs84Frame).isSome = !(none : Option DatumEnsemble).isSome := by
  refine ⟨rfl, c2_single_crs_exactly_one_datum.1 "no datum" none none [] rfl, ?_⟩
  have h := c2_single_crs_exactly_one_datum.2.2.2.1 "x" (some wgs84Frame)
    (none : Option DatumEnsemble) [] _ rfl
  exact h.1

end ProjSpec

namespace ProjSpec

/-- C3 counterexample: a CRS carrying a canonical BoundCRS whose hub is
EPSG:4326 makes createBoundCRSToWGS84IfPossible return that BoundCRS, which
is not the CRS itself, refuting the claim that self is returned unchanged in
that case. -/
theorem c3_canonical_bound_counterexample :
    CRS.createBoundCRSToWGS84IfPossible intlGeogCRS (some canonicalBoundExample)
        (Except.ok []) = canonicalBoundExample
    ∧ canonicalBoundExample ≠ intlGeogCRS := by
  constructor
  · unfold CRS.createBoundCRSToWGS84IfPossible
    have : boundCRSEarlyReturn intlGeogCRS (some canonicalBoundExample)
        = some canonicalBoundExample := by
      show (match canonicalBoundExample with
        | .bound _ _ hub _ =>
          if crsEquivalent hub EPSG_4326 then some canonicalBoundExample else none
        | _ => none) = some canonicalBoundExample
      show (if crsEquivalent EPSG_4326 EPSG_4326 then some canonicalBoundExample else none)
        = some canonicalBoundExample
      rw [if_pos]
      simp [crsEquivalent, EPSG_4326, geodeticContentEquiv, grfEquiv, ellipsoidEquiv,
        primeMeridianEquiv, axesEquiv, wgs84Frame, latitudeAxis, longitudeAxis]
    rw [this]
  · intro h
    exact CRS.noConfusion h

/-- C3 (amended): createBoundCRSToWGS84IfPossible returns the selected
BoundCRS when its hub is equivalent to EPSG:4326 (self when the CRS itself is
such a BoundCRS, else the carried canonical BoundCRS); with no such early
return it returns self unchanged when the extracted geographic CRS is
equivalent to EPSG:4326, when the operation factory fails, or when no
candidate yields TOWGS84 parameters; being a total function, no error
escapes. -/
theorem c3_bound_crs_to_wgs84_returns :
    (∀ (n : String) b hub t canonical ops, crsEquivalent hub EPSG_4326 = true →
      CRS.createBoundCRSToWGS84IfPossible (CRS.bound n b hub t) canonical ops
        = CRS.bound n b hub t)
    ∧ (∀ self canonical (bn : String) bb hub bt ops, self.isBoundVariant = false →
        canonical = some (CRS.bound bn bb hub bt) → crsEquivalent hub EPSG_4326 = true →
        CRS.createBoundCRSToWGS84IfPossible self canonical ops = CRS.bound bn bb hub bt)
    ∧ (∀ self canonical ops g,
        (∀ b, boundCRSSelection self canonical = some b → hubEquiv4326OfBound b = false) →
        self.extractGeographicCRS = some g → crsEquivalent g EPSG_4326 = true →
        CRS.createBoundCRSToWGS84IfPossible self canonical ops = self)
    ∧ (∀ self canonical msg,
        (∀ b, boundCRSSelection self canonical = some b → hubEquiv4326OfBound b = false) →
        CRS.createBoundCRSToWGS84IfPossible self canonical (Except.error msg) = self)
    ∧ (∀ self canonical list,
        (∀ b, boundCRSSelection self canonical = some b → hubEquiv4326OfBound b = false) →
        list.findSome? (usableTransformation self.isDerivedVariant) = none →
        CRS.createBoundCRSToWGS84IfPossible self canonical (Except.ok list) = self) := by
  refine ⟨?_, ?_, ?_, ?_, ?_⟩
  · intro n b hub t canonical ops h
    unfold CRS.createBoundCRSToWGS84IfPossible
    have : boundCRSEarlyReturn (CRS.bound n b hub t) canonical
        = some (CRS.bound n b hub t) := by
      simp [boundCRSEarlyReturn, boundCRSSelection, CRS.isBoundVariant, h]
    rw [this]
  · intro self canonical bn bb hub bt ops hnb hcan h
    unfold CRS.createBoundCRSToWGS84IfPossible
    have : boundCRSEarlyReturn self canonical = some (CRS.bound bn bb hub bt) := by
      simp [boundCRSEarlyReturn, boundCRSSelection, hnb, hcan, h]
    rw [this]
  · intro self canonical ops g hne hg hequiv
    unfold CRS.createBoundCRSToWGS84IfPossible
    rw [boundCRSEarlyReturn_eq_none self canonical hne]
    simp only [hg, Option.isNone_some, Bool.and_false, if_neg]
    simp [hequiv]
  · intro self canonical msg hne
    unfold CRS.createBoundCRSToWGS84IfPossible
    rw [boundCRSEarlyReturn_eq_none self canonical hne]
    cases hg : self.extractGeographicCRS with
    | none => simp [boundSearchResult]
    | some g =>
      simp only [hg, Option.isNone_some, Bool.and_false, Bool.false_eq_true, if_false]
      by_cases he : crsEquivalent g EPSG_4326 = true
      · simp [he]
      · simp [he, boundSearchResult]
  · intro self canonical list hne hfind
    unfold CRS.createBoundCRSToWGS84IfPossible
    rw [boundCRSEarlyReturn_eq_none self canonical hne]
    cases hg : self.extractGeographicCRS with
    | none => simp [boundSearchResult, hfind]
    | some g =>
      simp only [hg, Option.isNone_some, Bool.and_false, Bool.false_eq_true, if_false]
      by_cases he : crsEquivalent g EPSG_4326 = true
      · simp [he]
      · simp [he, boundSearchResult, hfind]

/-- Witness for C3: EPSG:4326 itself is returned unchanged (its extracted
geographic CRS is equivalent to EPSG:4326); a non-WGS84 geographic CRS is
returned unchanged both when the factory fails and when the candidate list is
empty. -/
theorem c3_bound_crs_to_wgs84_returns_witness :
    CRS.extractGeographicCRS EPSG_4326 = some EPSG_4326
    ∧ crsEquivalent EPSG_4326 EPSG_4326 = true
    ∧ CRS.createBoundCRSToWGS84IfPossible EPSG_4326 none (Except.ok []) = EPSG_4326
    ∧ CRS.createBoundCRSToWGS84IfPossible intlGeogCRS none (Except.error "db") = intlGeogCRS
    ∧ List.findSome? (usableTransformation (CRS.isDerivedVariant intlGeogCRS))
        ([] : List CoordOperation) = none
    ∧ CRS.createBoundCRSToWGS84IfPossible intlGeogCRS none (Except.ok []) = intlGeogCRS := by
  have hne1 : ∀ b, boundCRSSelection EPSG_4326 none = some b →
      hubEquiv4326OfBound b = false := by
    intro b h
    simp [boundCRSSelection, CRS.isBoundVariant, EPSG_4326] at h
  have hne2 : ∀ b, boundCRSSelection intlGeogCRS none = some b →
      hubEquiv4326OfBound b = false := by
    intro b h
    simp [boundCRSSelection, CRS.isBoundVariant, intlGeogCRS] at h
  refine ⟨rfl, crsEquivalent_EPSG_4326_refl, ?_, ?_, rfl, ?_⟩
  · exact c3_bound_crs_to_wgs84_returns.2.2.1 EPSG_4326 none (Except.ok []) EPSG_4326
      hne1 rfl crsEquivalent_EPSG_4326_refl
  · exact c3_bound_crs_to_wgs84_returns.2.2.2.1 intlGeogCRS none "db" hne2
  · exact c3_bound_crs_to_wgs84_returns.2.2.2.2 intlGeogCRS none [] hne2 rfl

/-- C4 counterexample: for a compound CRS whose first component yields a
geocentric (non-geographic) geodetic CRS and whose second component is a
GeographicCRS, the code returns null, while the claimed walk (first component
yielding a GeographicCRS) returns the second component. -/
theorem c4_compound_first_geodetic_counterexample :
    CRS.extractGeographicCRS compoundGeocentricFirst = none
    ∧ claimedExtractGeographicCRS compoundGeocentricFirst = some EPSG_4326
    ∧ claimedExtractGeographicCRS compoundGeocentricFirst
      ≠ CRS.extractGeographicCRS compoundGeocentricFirst := by
  refine ⟨rfl, rfl, ?_⟩
  intro h
  rw [show CRS.extractGeographicCRS compoundGeocentricFirst = none from rfl] at h
  exact Option.noConfusion h

/-- C4 (amended): extractGeographicCRS returns the CRS itself for a
GeographicCRS, recurses into the base for a ProjectedCRS and a BoundCRS,
and for a CompoundCRS returns the first component yielding a geodetic CRS,
kept only when that geodetic CRS is geographic; every other variant,
including a geocentric GeodeticCRS, yields null. -/
theorem c4_extract_geographic_crs_walk :
    (∀ (n : String) d e ax,
      CRS.extractGeographicCRS (CRS.geographic n d e ax) = some (CRS.geographic n d e ax))
    ∧ (∀ (n : String) d e ax,
      CRS.extractGeographicCRS (CRS.geodetic n d e ax) = none)
    ∧ (∀ (n : String) b cv ax,
      CRS.extractGeographicCRS (CRS.projected n b cv ax) = CRS.extractGeographicCRS b)
    ∧ (∀ (n : String) b h t,
      CRS.extractGeographicCRS (CRS.bound n b h t) = CRS.extractGeographicCRS b)
    ∧ (∀ (n : String) comps,
      CRS.extractGeographicCRS (CRS.compound n comps)
        = (extractGeodeticCRSRawFromList comps).bind
            (fun g => if g.isGeographicVariant then some g else none))
    ∧ (∀ (n : String) d e ax,
      CRS.extractGeographicCRS (CRS.vertical n d e ax) = none)
    ∧ (∀ n : String, CRS.extractGeographicCRS (CRS.engineering n) = none) := by
  refine ⟨fun n d e ax => rfl, fun n d e ax => rfl, fun n b cv ax => rfl,
    fun n b h t => rfl, fun n comps => ?_, fun n d e ax => rfl, fun n => rfl⟩
  unfold CRS.extractGeographicCRS
  show (match extractGeodeticCRSRawFromList comps with
    | some g => if g.isGeographicVariant then some g else none
    | none => none) = _
  cases extractGeodeticCRSRawFromList comps <;> rfl

/-- C5: stripVerticalComponent keeps the first two axes, the name, the datum
and the datum ensemble of a 3-axis GeographicCRS; keeps the first two axes,
the name, the base CRS and the deriving conversion of a 3-axis ProjectedCRS;
and returns every other CRS (2-axis ones included) unchanged. -/
theorem c5_strip_vertical_component :
    (∀ (n : String) d e a0 a1 a2,
      CRS.stripVerticalComponent (CRS.geographic n d e [a0, a1, a2])
        = CRS.geographic n d e [a0, a1])
    ∧ (∀ (n : String) b cv a0 a1 a2,
      CRS.stripVerticalComponent (CRS.projected n b cv [a0, a1, a2])
        = CRS.projected n b cv [a0, a1])
    ∧ (∀ c : CRS, c.is3DGeographicOr3DProjected = false →
      c.stripVerticalComponent = c) := by
  refine ⟨fun n d e a0 a1 a2 => rfl, fun n b cv a0 a1 a2 => rfl, ?_⟩
  intro c h
  cases c with
  | geographic n d e axes =>
    match axes with
    | [] => rfl
    | [a0] => rfl
    | [a0, a1] => rfl
    | [a0, a1, a2] => simp [CRS.is3DGeographicOr3DProjected] at h
    | a0 :: a1 :: a2 :: a3 :: rest => rfl
  | projected n b cv axes =>
    match axes with
    | [] => rfl
    | [a0] => rfl
    | [a0, a1] => rfl
    | [a0, a1, a2] => simp [CRS.is3DGeographicOr3DProjected] at h
    | a0 :: a1 :: a2 :: a3 :: rest => rfl
  | geodetic n d e axes => rfl
  | vertical n d e axes => rfl
  | compound n comps => rfl
  | bound n b hub t => rfl
  | engineering n => rfl

/-- Witness for C5: an EngineeringCRS is not a 3-axis geographic or projected
CRS and is returned unchanged. -/
theorem c5_strip_vertical_component_witness :
    (CRS.engineering "eng").is3DGeographicOr3DProjected = false
    ∧ (CRS.engineering "eng").stripVerticalComponent = CRS.engineering "eng" :=
  ⟨rfl, c5_strip_vertical_component.2.2 (CRS.engineering "eng") rfl⟩

end ProjSpec

namespace ProjSpec

/-- C6 counterexample: for a two-axis ellipsoid whose semi-major axis is
given in metres and whose semi-minor axis in kilometres, the round trip
through computeInverseFlattening mixes the raw numeric values of the two
units, and the recomputed semi-minor axis misses the true one by far more
than 1e-9 metre. -/
theorem c6_mixed_unit_roundtrip_counterexample :
    mixedUnitEllipsoid.isSphere = false
    ∧ 1 / 1000000000 <
        abs (mixedUnitEllipsoid.roundTripViaInverseFlattening.computeSemiMinorAxis.getSIValue
          - mixedUnitEllipsoid.computeSemiMinorAxis.getSIValue) := by
  constructor
  · simp [mixedUnitEllipsoid, Ellipsoid.isSphere, Ellipsoid.createTwoAxis, Measure.beq]
    norm_num
  · norm_num [mixedUnitEllipsoid, Ellipsoid.roundTripViaInverseFlattening,
      Ellipsoid.computeSemiMinorAxis, Ellipsoid.computeInverseFlattening,
      Ellipsoid.createTwoAxis, Ellipsoid.createFlattenedSphere, Measure.getSIValue,
      scaleOf, UnitOfMeasure.METRE, UnitOfMeasure.SCALE_UNITY, abs]

/-- C6 (amended): for every Ellipsoid that is not a sphere, has a positive
semi-major value, was built by one of the constructors (so at most one of the
derived fields is stored), and whose two-axis form has both axes in the same
length unit, applying computeSemiMinorAxis to the ellipsoid rebuilt from
computeInverseFlattening recovers the semi-minor axis within 1e-9 metre
(exactly, in real arithmetic); the two-axis form with axes in different units
is excluded, as the computation mixes their raw values. -/
theorem c6_semi_minor_roundtrip (e : Ellipsoid)
    (hforms : e.inverseFlattening = none ∨ e.semiMinorAxis = none)
    (hpos : 0 < e.semiMajorAxis.value)
    (hsph : e.isSphere = false)
    (hunit : ∀ b, e.semiMinorAxis = some b → b.unit = e.semiMajorAxis.unit) :
    abs (e.roundTripViaInverseFlattening.computeSemiMinorAxis.getSIValue
      - e.computeSemiMinorAxis.getSIValue) ≤ 1 / 1000000000 := by
  obtain ⟨a, invF, minB⟩ := e
  match invF, minB with
  | some f, some b =>
    rcases hforms with h | h <;> simp at h
  | some f, none =>
    simp [Ellipsoid.roundTripViaInverseFlattening, Ellipsoid.computeSemiMinorAxis,
      Ellipsoid.computeInverseFlattening, Ellipsoid.createFlattenedSphere]
  | none, some b =>
    have hu : b.unit = a.unit := hunit b rfl
    have hv : a.value ≠ b.value := by
      simp [Ellipsoid.isSphere, Measure.beq, hu] at hsph
      intro hav
      simp [hav] at hsph
    simp only [Ellipsoid.roundTripViaInverseFlattening, Ellipsoid.computeSemiMinorAxis,
      Ellipsoid.computeInverseFlattening, Ellipsoid.createFlattenedSphere,
      Ellipsoid.createTwoAxis, scaleOf, Measure.getSIValue, UnitOfMeasure.SCALE_UNITY]
    simp only [beq_iff_eq]
    rw [if_neg hv]
    have ha : a.value ≠ 0 := ne_of_gt hpos
    have hab : a.value - b.value ≠ 0 := sub_ne_zero_of_ne hv
    have hbv : (1 - 1 / (a.value / (a.value - b.value) * 1)) * a.value = b.value := by
      field_simp
    rw [hbv, hu]
    norm_num
  | none, none =>
    simp [Ellipsoid.isSphere] at hsph

/-- Witness for C6: the WGS 84 ellipsoid (inverse-flattening form) satisfies
all the hypotheses and the round trip recovers its semi-minor axis. -/
theorem c6_semi_minor_roundtrip_witness :
    (wgs84Ellipsoid.inverseFlattening = none ∨ wgs84Ellipsoid.semiMinorAxis = none)
    ∧ 0 < wgs84Ellipsoid.semiMajorAxis.value
    ∧ wgs84Ellipsoid.isSphere = false
    ∧ abs (wgs84Ellipsoid.roundTripViaInverseFlattening.computeSemiMinorAxis.getSIValue
        - wgs84Ellipsoid.computeSemiMinorAxis.getSIValue) ≤ 1 / 1000000000 := by
  have hforms : wgs84Ellipsoid.inverseFlattening = none ∨ wgs84Ellipsoid.semiMinorAxis = none :=
    Or.inr rfl
  have hpos : 0 < wgs84Ellipsoid.semiMajorAxis.value := by
    norm_num [wgs84Ellipsoid, Ellipsoid.createFlattenedSphere]
  have hsph : wgs84Ellipsoid.isSphere = false := by
    simp [wgs84Ellipsoid, Ellipsoid.createFlattenedSphere, Ellipsoid.isSphere, scaleOf]
  have hunit : ∀ b, wgs84Ellipsoid.semiMinorAxis = some b →
      b.unit = wgs84Ellipsoid.semiMajorAxis.unit := by
    intro b hb
    simp [wgs84Ellipsoid, Ellipsoid.createFlattenedSphere] at hb
  exact ⟨hforms, hpos, hsph, c6_semi_minor_roundtrip wgs84Ellipsoid hforms hpos hsph hunit⟩

/-- C7: exporting any BoundCRS to a PROJ string in the pipeline (PROJ_5)
convention fails with the dialect-refusal error the formatter classifies as
an unsupported operation, before any extension state is installed or any
output is produced, whatever the base CRS, hub CRS or transformation. -/
theorem c7_bound_crs_pipeline_export_fails (base hub : CRS) (t : Transformation)
    (baseExport : PROJFormatterExtensionState → Except String (List String)) :
    BoundCRS.exportToPROJString PROJConvention.PROJ_5 base hub t baseExport
      = Except.error "BoundCRS cannot be exported as a PROJ.5 string, but its baseCRS might" :=
  rfl

/-- C8: when a CoordinateSystemAxis is emitted as WKT1, its direction token
is the upper-cased name when in the restricted WKT1 subset, "NORTH" for
geocentric Z, "OTHER" for everything outside the subset; WKT2 keeps the
lower-case token unchanged. -/
theorem c8_axis_direction_wkt_tokens (d : AxisDirection) :
    axisDirectionWKTToken false d = claimedWKT1DirectionToken d
    ∧ axisDirectionWKTToken true d = AxisDirection.toString d := by
  cases d <;> constructor <;> decide

/-- C9: a CompoundCRS created without a name entry gets the component names
joined in order with " + ", "unnamed" standing in for empty names; with a
name entry that name is used verbatim, whatever the components. -/
theorem c9_compound_crs_name :
    (∀ components : List CRS,
      (CompoundCRS.create none components).nameStr = claimedCompoundName components)
    ∧ (∀ (n : String) (components : List CRS),
      (CompoundCRS.create (some n) components).nameStr = n) := by
  constructor
  · intro components
    match components with
    | [] => rfl
    | c :: rest =>
      show List.foldl compoundNameStep "" (c :: rest) = claimedCompoundName (c :: rest)
      rw [List.foldl_cons, compoundNameStep_empty,
        foldl_compoundNameStep rest _ (componentDisplayName_ne_empty c),
        claimedCompoundName_cons rest c]
  · intro n components
    rfl

/-- C10: the derived Ellipsoid accessors are total; a radius-only ellipsoid
has computed inverse flattening 0 and computed semi-minor axis equal to the
semi-major axis; a two-axis ellipsoid with equal axis values gets inverse
flattening 0 from the guard, without the division; and isSphere holds exactly
for the radius-only form, the two-axis form with equal axes, and a stored
inverse flattening of 0. -/
theorem c10_ellipsoid_accessors :
    (∀ r : Measure, (Ellipsoid.createSphere r).computeInverseFlattening = scaleOf 0
        ∧ (Ellipsoid.createSphere r).computeSemiMinorAxis = r)
    ∧ (∀ a b : Measure, a.value = b.value →
        (Ellipsoid.createTwoAxis a b).computeInverseFlattening = scaleOf 0)
    ∧ (∀ e : Ellipsoid, e.isSphere = true ↔
        ((∃ f, e.inverseFlattening = some f ∧ f.value = 0)
          ∨ (e.inverseFlattening = none ∧ e.semiMinorAxis = none)
          ∨ (e.inverseFlattening = none ∧ ∃ b, e.semiMinorAxis = some b
              ∧ Measure.beq e.semiMajorAxis b = true))) := by
  refine ⟨?_, ?_, ?_⟩
  · intro r
    exact ⟨rfl, rfl⟩
  · intro a b h
    simp [Ellipsoid.createTwoAxis, Ellipsoid.computeInverseFlattening, h]
  · intro e
    obtain ⟨a, invF, minB⟩ := e
    match invF, minB with
    | some f, _ => simp [Ellipsoid.isSphere, beq_iff_eq]
    | none, some b => simp [Ellipsoid.isSphere]
    | none, none => simp [Ellipsoid.isSphere]

/-- Witness for C10: a two-axis ellipsoid with equal values in different
units gets inverse flattening 0, and a sphere keeps its radius as semi-minor
axis. -/
theorem c10_ellipsoid_accessors_witness :
    (Ellipsoid.createTwoAxis ⟨2, UnitOfMeasure.METRE⟩
      ⟨2, ⟨"half metre", 1/2⟩⟩).computeInverseFlattening = scaleOf 0
    ∧ (Ellipsoid.createSphere ⟨5, UnitOfMeasure.METRE⟩).computeSemiMinorAxis
      = ⟨5, UnitOfMeasure.METRE⟩ :=
  ⟨c10_ellipsoid_accessors.2.1 ⟨2, UnitOfMeasure.METRE⟩ ⟨2, ⟨"half metre", 1/2⟩⟩ rfl,
   (c10_ellipsoid_accessors.1 ⟨5, UnitOfMeasure.METRE⟩).2⟩

end ProjSpec
